import Mathlib

/-!
# Verification of `protocol-integration.js` (Protocol Memory Site Integration Library)

A shallow embedding, in Lean 4, of the browser widget implemented in
`src/protocol-integration.js`, together with theorems settling the claims of
the natural-language specification.

Modelling conventions:

* JavaScript strings are Lean `String`s; where character-level reasoning is
  needed we work on `String.data : List Char`.
* A JavaScript value that may be `undefined`/`null` is an `Option`.
  JavaScript truthiness of an optional string (`if (x)`) is `jsTruthy`:
  `none` and `some ""` are falsy.
* The DOM is a record of optional mount points (`none` = the element is
  absent from the host page); `innerHTML` assignment is a record update,
  guarded exactly where the source guards it.
* Code paths that can raise a JavaScript exception are modelled in
  `Except JsError`; a path modelled as a plain total function provably
  cannot throw.
* Timers (`setInterval`/`clearInterval`) are modelled by an allocator state
  holding the set of active timer ids.
* `crypto.subtle.digest('SHA-256', …)` is modelled by a full implementation
  of FIPS 180-4 SHA-256 over byte lists, with 32-bit words as `Nat` reduced
  `% 2^32`.
-/

/-! ## JavaScript truthiness and `||` on optional strings -/

/-- JS truthiness of a possibly-`undefined` string: `undefined`, `null` and
`""` are falsy; every other string is truthy. -/
def jsTruthy : Option String → Bool
  | none => false
  | some s => s ≠ ""

/-- JS `a || b` for possibly-`undefined` strings: yields `a` when truthy,
else `b`. -/
def jsOr (a b : Option String) : Option String :=
  if jsTruthy a then a else b

/-- JS `a || "dflt"` where the fallback is a (truthy) string literal. -/
def jsOrStr (a : Option String) (dflt : String) : String :=
  match jsOr a (some dflt) with
  | some s => s
  | none => dflt

/-! ## `escapeHtml` (source lines 502–507)

The source implements escaping by round-tripping through the DOM:

```js
escapeHtml(text) {
  if (!text) return '';
  const div = document.createElement('div');
  div.textContent = text;
  return div.innerHTML;
}
```

Per the WHATWG HTML fragment-serialization algorithm, serializing a text
node (`innerHTML` of the div) escapes exactly `&` → `&amp;`,
U+00A0 (no-break space) → `&nbsp;`, `<` → `&lt;` and `>` → `&gt;`.
Quotation marks are NOT escaped in text-node position. -/

/-- Serialization of one character of a DOM text node, as performed by
`innerHTML` (WHATWG HTML fragment serialization). -/
def serializeTextChar (c : Char) : List Char :=
  if c = '&' then ['&', 'a', 'm', 'p', ';']
  else if c = '<' then ['&', 'l', 't', ';']
  else if c = '>' then ['&', 'g', 't', ';']
  else if c = ' ' then ['&', 'n', 'b', 's', 'p', ';']
  else [c]

/-- `div.textContent = text; return div.innerHTML` on a nonempty string. -/
def serializeTextNode (s : String) : String :=
  ⟨s.data.flatMap serializeTextChar⟩

/-- `ProtocolIntegration.escapeHtml` (source lines 502–507).
`if (!text) return ''` makes the empty string map to itself; all other
strings are serialized as a DOM text node. -/
def escapeHtml (text : String) : String :=
  if text = "" then "" else serializeTextNode text

/-- `escapeHtml` lifted to an optional (possibly `undefined`) argument:
`escapeHtml(undefined)` also returns `''` via the `!text` guard. -/
def escapeHtmlOpt (text : Option String) : String :=
  match text with
  | none => ""
  | some s => escapeHtml s

/-! ## Seeds (items) and the priority sort (source lines 257–307) -/

/-- One element of the `seeds` array of the fetched payload. -/
structure Seed where
  text : Option String
  title : Option String
  priority : Option String
  status : Option String
  description : Option String
  tags : Option (List String)
  deriving Repr, DecidableEq

/-- `const priorityOrder = { urgent: 0, high: 1, normal: 2, low: 3 }`
(source line 267); lookup of a missing key yields `undefined`. -/
def priorityOrder : String → Option Nat
  | "urgent" => some 0
  | "high" => some 1
  | "normal" => some 2
  | "low" => some 3
  | _ => none

/-- The comparator key `(priorityOrder[a.priority] || 3)` (source line 272).
JS `||` returns the right operand when the left is falsy, and the number `0`
is falsy — so a lookup result of `0` (the `urgent` entry) is replaced by `3`,
exactly like a missing key. -/
def seedRank (s : Seed) : Nat :=
  match s.priority.bind priorityOrder with
  | some n => if n = 0 then 3 else n
  | none => 3

/-- Stable insertion of a seed into a rank-sorted list: `x` is placed before
the first element `y` with `seedRank x ≤ seedRank y`. Since during
`sortSeeds` the inserted element always precedes, in the input, every
element of the list it is inserted into, equal-rank elements keep their
original relative order. -/
def insertByRank (x : Seed) : List Seed → List Seed
  | [] => [x]
  | y :: ys => if seedRank x ≤ seedRank y then x :: y :: ys else y :: insertByRank x ys

/-- The observable effect of `seeds.sort(comparator)` (source lines 270–273):
ECMAScript requires `Array.prototype.sort` to be stable (ES2019), and any
stable sort by the key `seedRank` produces the same output list, here
realized as a stable insertion sort (`x` goes before the existing element
`y` whenever `rank x ≤ rank y`, so earlier-input elements stay first among
equal ranks). -/
def sortSeeds : List Seed → List Seed
  | [] => []
  | x :: xs => insertByRank x (sortSeeds xs)

/-- `seeds.sort(...).slice(0, 5)` — the truncated, sorted list
(`topSeeds`, source lines 270–274). -/
def topSeeds (seeds : List Seed) : List Seed :=
  (sortSeeds seeds).take 5

/-! ## Expertise preview truncation (source lines 315–372) -/

/-- One element of the `contexts` array of the fetched payload. -/
structure Context where
  name : Option String
  type : Option String
  content : Option String
  tags : Option (List String)
  deriving Repr, DecidableEq

/-- JS regex `\s` on the characters this payload can contain: space, tab,
line feed, vertical tab, form feed, carriage return, no-break space (plus
other Unicode space separators, elided — none below affects the claims). -/
def isJsWs (c : Char) : Bool :=
  c = ' ' ∨ c = '\t' ∨ c = '\n' ∨ c = '\x0b' ∨ c = '\x0c' ∨ c = '\r' ∨ c = ' '

/-- `str.replace(/\s+\S*$/, '')` (source line 332): the regex matches the
final maximal run of whitespace together with the trailing (possibly empty)
run of non-whitespace that follows it to the end of the string; if the
string contains no whitespace the regex does not match and the string is
returned unchanged. Computed from the right: drop the maximal trailing
non-whitespace run, then — provided any whitespace was actually found —
drop the maximal trailing whitespace run. -/
def stripTailWord (l : List Char) : List Char :=
  let r := l.reverse
  let r1 := r.dropWhile (fun c => !(isJsWs c))
  if r1.isEmpty then l else ((r1.dropWhile isJsWs).reverse)

/-- `PREVIEW_LENGTH` (source line 324). -/
def PREVIEW_LENGTH : Nat := 500

/-- `content.substring(0, PREVIEW_LENGTH).replace(/\s+\S*$/, '') + '...'`
(source lines 331–332), on the character list of the content. -/
def previewChars (content : List Char) : List Char :=
  stripTailWord (content.take PREVIEW_LENGTH) ++ ['.', '.', '.']

/-- `needsExpansion` (source lines 329–330): the content length exceeds the
preview budget (`context.content ? context.content.length : 0`). -/
def needsExpansion (content : Option String) : Bool :=
  (match content with | some s => s.length | none => 0) > PREVIEW_LENGTH

/-- `previewText` (source lines 331–333): the truncated-with-ellipsis
preview when expansion is needed, the raw content otherwise
(`undefined` content stays `undefined`; it is only interpolated under a
`context.content ?` guard). -/
def previewText (content : Option String) : Option String :=
  match content with
  | none => none
  | some s =>
      if needsExpansion (some s) then some ⟨previewChars s.data⟩ else some s

/-! ## `formatRelativeTime` (source lines 516–532)

Timestamps are modelled as milliseconds (`Nat`); `(now - date) / 1000`
floored is `Nat` division (for a future timestamp JS gets a negative
`seconds`, which like `0` falls into the first `seconds < 60` branch, so
`Nat` truncation at `0` is observationally identical). -/

/-- `ProtocolIntegration.formatRelativeTime` (source lines 516–532) on an
already-parsed timestamp; `none` models the `!timestamp` guard returning
`'recently'`. -/
def formatRelativeTime (timestamp : Option Nat) (now : Nat) : String :=
  match timestamp with
  | none => "recently"
  | some t =>
      let seconds := (now - t) / 1000
      if seconds < 60 then "just now"
      else if seconds < 120 then "1 minute ago"
      else if seconds < 3600 then toString (seconds / 60) ++ " minutes ago"
      else if seconds < 7200 then "1 hour ago"
      else if seconds < 86400 then toString (seconds / 3600) ++ " hours ago"
      else if seconds < 172800 then "yesterday"
      else if seconds < 604800 then toString (seconds / 86400) ++ " days ago"
      else "recently"

/-! ## SHA-256 (FIPS 180-4)

`GravatarHelper.sha256` (source lines 712–724) hashes the UTF-8 encoding of
the normalized email with `crypto.subtle.digest('SHA-256', …)` and formats
the 32 digest bytes as lowercase hex. The Web Crypto digest is the standard
FIPS 180-4 SHA-256, implemented here over byte lists (`Nat` values `< 256`),
with 32-bit words as `Nat` reduced modulo `2^32`. -/

/-- Truncation to a 32-bit word. -/
def w32 (n : Nat) : Nat := n % 4294967296

/-- 32-bit right rotation. -/
def rotr32 (x n : Nat) : Nat := w32 ((x >>> n) ||| (x <<< (32 - n)))

/-- SHA-256 `Ch(x,y,z) = (x ∧ y) ⊕ (¬x ∧ z)` (32-bit complement via xor). -/
def shaCh (x y z : Nat) : Nat := (x &&& y) ^^^ ((x ^^^ 4294967295) &&& z)

/-- SHA-256 `Maj(x,y,z)`. -/
def shaMaj (x y z : Nat) : Nat := (x &&& y) ^^^ (x &&& z) ^^^ (y &&& z)

/-- SHA-256 `Σ₀`. -/
def bsig0 (x : Nat) : Nat := rotr32 x 2 ^^^ rotr32 x 13 ^^^ rotr32 x 22

/-- SHA-256 `Σ₁`. -/
def bsig1 (x : Nat) : Nat := rotr32 x 6 ^^^ rotr32 x 11 ^^^ rotr32 x 25

/-- SHA-256 `σ₀`. -/
def ssig0 (x : Nat) : Nat := rotr32 x 7 ^^^ rotr32 x 18 ^^^ (x >>> 3)

/-- SHA-256 `σ₁`. -/
def ssig1 (x : Nat) : Nat := rotr32 x 17 ^^^ rotr32 x 19 ^^^ (x >>> 10)

/-- The first sixteen SHA-256 round constants. -/
def shaK0 : List Nat :=
  [0x428a2f98, 0x71374491, 0xb5c0fbcf, 0xe9b5dba5,
   0x3956c25b, 0x59f111f1, 0x923f82a4, 0xab1c5ed5] ++
  [0xd807aa98, 0x12835b01, 0x243185be, 0x550c7dc3,
   0x72be5d74, 0x80deb1fe, 0x9bdc06a7, 0xc19bf174]

/-- SHA-256 round constants 16 to 31. -/
def shaK1 : List Nat :=
  [0xe49b69c1, 0xefbe4786, 0x0fc19dc6, 0x240ca1cc,
   0x2de92c6f, 0x4a7484aa, 0x5cb0a9dc, 0x76f988da] ++
  [0x983e5152, 0xa831c66d, 0xb00327c8, 0xbf597fc7,
   0xc6e00bf3, 0xd5a79147, 0x06ca6351, 0x14292967]

/-- SHA-256 round constants 32 to 47. -/
def shaK2 : List Nat :=
  [0x27b70a85, 0x2e1b2138, 0x4d2c6dfc, 0x53380d13,
   0x650a7354, 0x766a0abb, 0x81c2c92e, 0x92722c85] ++
  [0xa2bfe8a1, 0xa81a664b, 0xc24b8b70, 0xc76c51a3,
   0xd192e819, 0xd6990624, 0xf40e3585, 0x106aa070]

/-- SHA-256 round constants 48 to 63. -/
def shaK3 : List Nat :=
  [0x19a4c116, 0x1e376c08, 0x2748774c, 0x34b0bcb5,
   0x391c0cb3, 0x4ed8aa4a, 0x5b9cca4f, 0x682e6ff3] ++
  [0x748f82ee, 0x78a5636f, 0x84c87814, 0x8cc70208,
   0x90befffa, 0xa4506ceb, 0xbef9a3f7, 0xc67178f2]

/-- The 64 SHA-256 round constants `K` (validated below against the FIPS
180-4 test vectors). -/
def shaK : List Nat :=
  shaK0 ++ shaK1 ++ shaK2 ++ shaK3

/-- The SHA-256 working state: eight 32-bit words. -/
structure SHAState where
  a : Nat
  b : Nat
  c : Nat
  d : Nat
  e : Nat
  f : Nat
  g : Nat
  h : Nat
  deriving Repr, DecidableEq

/-- The SHA-256 initial hash value `H⁽⁰⁾`. -/
def shaH0 : SHAState :=
  ⟨0x6a09e667, 0xbb67ae85, 0x3c6ef372, 0xa54ff53a, 0x510e527f, 0x9b05688c, 0x1f83d9ab, 0x5be0cd19⟩

/-- Big-endian 8-byte encoding of the message bit length. -/
def be8Bytes (n : Nat) : List Nat :=
  [(n >>> 56) % 256, (n >>> 48) % 256, (n >>> 40) % 256, (n >>> 32) % 256,
   (n >>> 24) % 256, (n >>> 16) % 256, (n >>> 8) % 256, n % 256]

/-- Big-endian 4-byte serialization of a 32-bit word. -/
def be4Bytes (n : Nat) : List Nat :=
  [(n >>> 24) % 256, (n >>> 16) % 256, (n >>> 8) % 256, n % 256]

/-- SHA-256 message padding: append `0x80`, then zeros to 56 mod 64 bytes,
then the 64-bit big-endian bit length. -/
def sha256Pad (msg : List Nat) : List Nat :=
  let len := msg.length
  let k := (120 - (len + 1) % 64) % 64
  msg ++ 128 :: List.replicate k 0 ++ be8Bytes (8 * len)

/-- Split the padded message into 64-byte blocks (structural recursion on a
fuel bounded by the list length, which always suffices since every step
consumes at least one element). -/
def toBlocksFuel : Nat → List Nat → List (List Nat)
  | 0, _ => []
  | _, [] => []
  | fuel + 1, l => l.take 64 :: toBlocksFuel fuel (l.drop 64)

/-- Split the padded message into 64-byte blocks. -/
def toBlocks (l : List Nat) : List (List Nat) :=
  toBlocksFuel l.length l

/-- The 16 big-endian 32-bit words of one 64-byte block. -/
def blockWords : List Nat → List Nat
  | b0 :: b1 :: b2 :: b3 :: rest => (((b0 * 256 + b1) * 256 + b2) * 256 + b3) :: blockWords rest
  | _ => []

/-- One step of the message-schedule extension:
`W[i] = σ₁(W[i-2]) + W[i-7] + σ₀(W[i-15]) + W[i-16] (mod 2³²)`. -/
def scheduleStep (w : Array Nat) (i : Nat) : Array Nat :=
  w.push (w32 (ssig1 (w.getD (i - 2) 0) + w.getD (i - 7) 0 +
               ssig0 (w.getD (i - 15) 0) + w.getD (i - 16) 0))

/-- The full 64-word message schedule of a block. -/
def schedule (ws16 : List Nat) : Array Nat :=
  (List.range 48).foldl (fun w j => scheduleStep w (j + 16)) ws16.toArray

/-- One SHA-256 compression round. -/
def compressStep (k wi : Nat) (s : SHAState) : SHAState :=
  let t1 := w32 (s.h + bsig1 s.e + shaCh s.e s.f s.g + k + wi)
  let t2 := w32 (bsig0 s.a + shaMaj s.a s.b s.c)
  ⟨w32 (t1 + t2), s.a, s.b, s.c, w32 (s.d + t1), s.e, s.f, s.g⟩

/-- Process one 64-byte block: 64 compression rounds, then add the previous
hash value (mod 2³²). -/
def processBlock (hv : SHAState) (block : List Nat) : SHAState :=
  let w := schedule (blockWords block)
  let s := (List.range 64).foldl
    (fun s i => compressStep (shaK.getD i 0) (w.getD i 0) s) hv
  ⟨w32 (hv.a + s.a), w32 (hv.b + s.b), w32 (hv.c + s.c), w32 (hv.d + s.d),
   w32 (hv.e + s.e), w32 (hv.f + s.f), w32 (hv.g + s.g), w32 (hv.h + s.h)⟩

/-- SHA-256 digest of a byte list: the 32 bytes of the final hash value. -/
def sha256Bytes (msg : List Nat) : List Nat :=
  let fin := (toBlocks (sha256Pad msg)).foldl processBlock shaH0
  be4Bytes fin.a ++ be4Bytes fin.b ++ be4Bytes fin.c ++ be4Bytes fin.d ++
  be4Bytes fin.e ++ be4Bytes fin.f ++ be4Bytes fin.g ++ be4Bytes fin.h

/-! ## Hex formatting and `GravatarHelper` (source lines 685–724) -/

/-- The sixteen lowercase hexadecimal digit characters of JS
`Number.prototype.toString(16)`. -/
def hexCharsLower : List Char :=
  "0123456789abcdef".data

/-- The digit at index `n` of the lowercase hex alphabet. -/
def hexDigitChar (n : Nat) : Char :=
  hexCharsLower.getD n '0'

/-- Digit recursion of JS `Number.prototype.toString(16)`, structural on a
fuel bounded by the number itself (each step divides by 16, so fuel `n`
always suffices; the fuel-exhausted base case is unreachable then and kept
semantics-preserving for `n < 16`). -/
def natToHexFuel : Nat → Nat → List Char
  | 0, n => [hexDigitChar (n % 16)]
  | fuel + 1, n =>
      if n < 16 then [hexDigitChar n]
      else natToHexFuel fuel (n / 16) ++ [hexDigitChar (n % 16)]

/-- JS `b.toString(16)` for a natural number: lowercase hex digits, no
leading zeros (and a single `'0'` for zero). -/
def natToHex (n : Nat) : List Char :=
  natToHexFuel n n

/-- JS `str.padStart(2, '0')` on a digit list. -/
def padStart2 (l : List Char) : List Char :=
  List.replicate (2 - l.length) '0' ++ l

/-- `b.toString(16).padStart(2, '0')` (source line 721). -/
def byteHex (b : Nat) : List Char :=
  padStart2 (natToHex b)

/-- `hashArray.map(b => b.toString(16).padStart(2, '0')).join('')`
(source line 721): the digest bytes as a lowercase hex string. -/
def bytesToHex (bytes : List Nat) : String :=
  ⟨bytes.flatMap byteHex⟩

/-- UTF-8 encoding of one character (`new TextEncoder().encode(...)`,
source line 714). -/
def utf8EncodeChar (c : Char) : List Nat :=
  let n := c.toNat
  if n < 128 then [n]
  else if n < 2048 then [192 + n / 64, 128 + n % 64]
  else if n < 65536 then [224 + n / 4096, 128 + (n / 64) % 64, 128 + n % 64]
  else [240 + n / 262144, 128 + (n / 4096) % 64, 128 + (n / 64) % 64, 128 + n % 64]

/-- UTF-8 encoding of a string. -/
def utf8Encode (s : String) : List Nat :=
  s.data.flatMap utf8EncodeChar

/-- `GravatarHelper.sha256` (source lines 712–724): UTF-8 encode, digest
with SHA-256, format as lowercase hex. -/
def gravatarSha256 (s : String) : String :=
  bytesToHex (sha256Bytes (utf8Encode s))

/-- JS `email.toLowerCase()`. (`Char.toLower` lowercases the ASCII range;
email addresses are ASCII, and case outside ASCII does not affect any
claim.) -/
def jsToLower (s : String) : String :=
  ⟨s.data.map Char.toLower⟩

/-- JS `str.trim()`: remove leading and trailing whitespace. -/
def jsTrim (s : String) : String :=
  ⟨((s.data.dropWhile isJsWs).reverse.dropWhile isJsWs).reverse⟩

/-- `email.toLowerCase().trim()` (source line 691). -/
def normalizeEmail (email : String) : String :=
  jsTrim (jsToLower email)

/-- `GravatarHelper.getAvatarUrl` (source lines 685–699). The argument is
`none` for a non-string (or absent) input, matching the
`typeof email !== 'string'` guard; `some ""` is rejected by `!email`. -/
def getAvatarUrl (email : Option String) (size : Nat := 256)
    (defaultImage : String := "identicon") : Option String :=
  match email with
  | none => none
  | some e =>
      if e = "" then none
      else
        let normalized := normalizeEmail e
        let hash := gravatarSha256 normalized
        some ("https://www.gravatar.com/avatar/" ++ hash ++ "?s=" ++
              toString size ++ "&d=" ++ defaultImage)

/-! ## The DOM model

Mount points are optional (`none` = the element is absent from the host
page); a present element's `innerHTML` is its `some` payload. The modal
container `#pm-modal` is modelled with presence flags for itself, its
`.pm-modal-body`, `.pm-modal-close` and `.pm-modal-backdrop` descendants,
its displayed state, the page-scroll lock, the `onclick` wiring installed by
`setupModalCloseHandlers`, and the number of currently attached `keydown`
Escape handlers on `document`.

In markup strings below, the insignificant indentation/newline whitespace of
the source template literals is elided; tag structure, attributes, literal
text and every interpolation are reproduced. -/

structure Page where
  currentState : Option String
  about : Option String
  projects : Option String
  expertise : Option String
  lastUpdated : Option String
  modalPresent : Bool
  modalBodyPresent : Bool
  closeBtnPresent : Bool
  backdropPresent : Bool
  modalBody : String
  modalDisplayed : Bool
  bodyOverflowHidden : Bool
  closeWired : Bool
  backdropWired : Bool
  escHandlers : Nat
  deriving Repr, DecidableEq

/-- A JavaScript exception escaping a modelled operation. -/
inductive JsError where
  /-- `TypeError`: property access on `null`/`undefined`. -/
  | nullDeref
  /-- `fetch` rejected (network failure). -/
  | networkError
  /-- `throw new Error('HTTP …')` on a non-2xx response (source line 97). -/
  | httpStatus (status : Nat)
  /-- `response.json()` rejected (body not valid JSON). -/
  | parseError
  deriving Repr, DecidableEq

/-! ## The fetched payload (§6 of the spec; source lines 100–110) -/

/-- The polymorphic `energy` field: a plain string or a
`{display, updated_at}` object (an object lacking `display` is modelled
with `display = none`). -/
inductive Energy where
  | str (s : String)
  | obj (display : Option String) (updated_at : Option Nat)
  deriving Repr, DecidableEq

/-- `fields.current_state`. -/
structure CurrentState where
  focus : Option String
  energy : Option Energy
  location : Option String
  availability : Option String
  deriving Repr, DecidableEq

/-- `fields.identity`. -/
structure Identity where
  name : Option String
  tagline : Option String
  philosophy : Option String
  role : Option String
  bio : Option String
  expertise : Option String
  deriving Repr, DecidableEq

/-- `fields.about`. -/
structure About where
  tagline : Option String
  bio : Option String
  current_work : Option String
  deriving Repr, DecidableEq

/-- The parsed response document. `fields?.X` optional chaining is
flattened: `fields_X = none` covers both a missing `fields` object and a
missing member. Timestamps inside are already parsed to milliseconds. -/
structure Payload where
  avatar_url : Option String
  email : Option String
  custom_bio : Option String
  fields_current_state : Option CurrentState
  fields_identity : Option Identity
  fields_about : Option About
  seeds : Option (List Seed)
  contexts : Option (List Context)
  deriving Repr, DecidableEq

/-- The widget instance state: the DOM plus the fields of the
`ProtocolIntegration` object that the render/modal operations touch
(`this.data`, `this.lastUpdate`, `this.cachedSeeds`, `this.cachedContexts`).
The refresh timer is modelled separately (see `SchedState`). -/
structure WidgetState where
  page : Page
  data : Option Payload
  lastUpdate : Option Nat
  cachedSeeds : Option (List Seed)
  cachedContexts : Option (List Context)
  deriving Repr, DecidableEq

/-! ## Renderer markup (source lines 125–445) -/

/-- `x || ''`: the string value of an optional field, `""` when falsy. -/
def jsOrEmpty (a : Option String) : String :=
  if jsTruthy a then a.getD "" else ""

/-- The energy part of the current-state markup (source lines 134–156). -/
def energyHTML (energy : Option Energy) (now : Nat) : String :=
  match energy with
  | none => ""
  | some (.str s) =>
      -- `if (energy)`: the empty string is falsy
      if s = "" then ""
      else "<div class=\"pm-state-item\"><span class=\"pm-label\">Energy</span><span class=\"pm-value\">" ++
           escapeHtml s ++ "</span></div>"
  | some (.obj display updated_at) =>
      -- an object is always truthy; `else if (energy.display)`
      if jsTruthy display then
        let timestampText :=
          match updated_at with
          | some t => " <small>(" ++ formatRelativeTime (some t) now ++ ")</small>"
          | none => ""
        "<div class=\"pm-state-item\"><span class=\"pm-label\">Energy</span><span class=\"pm-value\">" ++
        escapeHtml (jsOrEmpty display) ++ timestampText ++ "</span></div>"
      else ""

/-- The full current-state markup (source lines 158–191). Note that
`secondaryItems` always contains `energyHTML` (possibly `""`), so
`secondaryItems.length > 0` is always true and the secondary `<div>` always
renders. -/
def currentStateHTML (cs : CurrentState) (now : Nat) : String :=
  let secondaryItems :=
    [energyHTML cs.energy now] ++
    (if jsTruthy cs.location then
      ["<div class=\"pm-state-item\"><span class=\"pm-label\">Location</span><span class=\"pm-value\">" ++
       escapeHtml (jsOrEmpty cs.location) ++ "</span></div>"] else []) ++
    (if jsTruthy cs.availability then
      ["<div class=\"pm-state-item\"><span class=\"pm-label\">Availability</span><span class=\"pm-value\">" ++
       escapeHtml (jsOrEmpty cs.availability) ++ "</span></div>"] else [])
  "<div class=\"pm-state-grid\">" ++
  (if jsTruthy cs.focus then
    "<div class=\"pm-state-item pm-state-focus\"><span class=\"pm-label\">Current Focus</span><span class=\"pm-value\">" ++
    escapeHtml (jsOrEmpty cs.focus) ++ "</span></div>" else "") ++
  (if secondaryItems.length > 0 then
    "<div class=\"pm-state-secondary\">" ++ String.join secondaryItems ++ "</div>" else "") ++
  "</div>"

/-- `ProtocolIntegration.updateCurrentState` (source lines 125–192):
no-op when `currentState` is falsy or `#pm-current-state` is absent. -/
def updateCurrentState (s : WidgetState) (currentState : Option CurrentState) (now : Nat) : WidgetState :=
  match currentState with
  | none => s
  | some cs =>
      match s.page.currentState with
      | none => s
      | some _ => { s with page := { s.page with currentState := some (currentStateHTML cs now) } }

/-- The avatar slot of the about markup (source lines 222–236): prefer the
server-side pre-computed `this.data?.avatar_url`; else derive from
`this.data?.email` via `GravatarHelper.getAvatarUrl`; else render nothing.
Note both URLs are interpolated into the `style` attribute without
`escapeHtml`. -/
def aboutAvatarHTML (data : Option Payload) : String :=
  let avatarUrl := data.bind (·.avatar_url)
  let email := data.bind (·.email)
  if jsTruthy avatarUrl then
    "<div class=\"profile-avatar\" style=\"background-image: url('" ++
    jsOrEmpty avatarUrl ++ "')\"></div>"
  else if jsTruthy email then
    let generatedUrl := getAvatarUrl email 256 "identicon"
    if jsTruthy generatedUrl then
      "<div class=\"profile-avatar\" style=\"background-image: url('" ++
      jsOrEmpty generatedUrl ++ "')\"></div>"
    else ""
  else ""

/-- The about-section markup (source lines 206–248). (`identity?.name` is
extracted by the source but never interpolated.) -/
def aboutHTML (data : Option Payload) (identity : Option Identity) (about : Option About) : String :=
  let tagline := jsOrEmpty (jsOr (about.bind (·.tagline)) (identity.bind (·.tagline)))
  let philosophy := jsOrEmpty (identity.bind (·.philosophy))
  let role := jsOrEmpty (identity.bind (·.role))
  let bio := jsOrEmpty (jsOr (about.bind (·.bio)) (identity.bind (·.bio)))
  let customBio := jsOrEmpty (data.bind (·.custom_bio))
  let currentWork := jsOrEmpty (about.bind (·.current_work))
  let expertise := jsOrEmpty (identity.bind (·.expertise))
  let bioContent := if customBio ≠ "" then customBio else bio
  let showTagline := tagline ≠ "" ∧ tagline ≠ philosophy
  aboutAvatarHTML data ++
  (if showTagline then "<p class=\"pm-tagline\">" ++ escapeHtml tagline ++ "</p>" else "") ++
  (if role ≠ "" then "<p class=\"pm-role\"><strong>Role:</strong> " ++ escapeHtml role ++ "</p>" else "") ++
  (if currentWork ≠ "" then "<p class=\"pm-current-work\"><strong>Current Work:</strong> " ++ escapeHtml currentWork ++ "</p>" else "") ++
  (if bioContent ≠ "" then "<div class=\"pm-bio\"><strong>Background:</strong> " ++ escapeHtml bioContent ++ "</div>" else "") ++
  (if philosophy ≠ "" then "<p class=\"pm-philosophy\"><strong>Philosophy:</strong> " ++ escapeHtml philosophy ++ "</p>" else "") ++
  (if expertise ≠ "" then "<p class=\"pm-expertise-summary\"><strong>Expertise:</strong> " ++ escapeHtml expertise ++ "</p>" else "")

/-- `ProtocolIntegration.updateAbout` (source lines 202–249): no-op when
`#pm-about` is absent. Reads `custom_bio`, `avatar_url` and `email` from
`this.data`. -/
def updateAbout (s : WidgetState) (identity : Option Identity) (about : Option About) : WidgetState :=
  match s.page.about with
  | none => s
  | some _ => { s with page := { s.page with about := some (aboutHTML s.data identity about) } }

/-- `${seed.text || seed.title || 'Untitled'}` (source line 282). -/
def seedTitle (seed : Seed) : String :=
  jsOrStr (jsOr seed.text seed.title) "Untitled"

/-- The tag list markup (source lines 293–297 / 355–359 / 574–578 / 586–590),
parameterized by the container class (`pm-project-tags` or
`pm-expertise-tags`). -/
def tagsHTML (cls : String) (tags : Option (List String)) : String :=
  match tags with
  | none => ""
  | some ts =>
      if ts.length > 0 then
        "<div class=\"" ++ cls ++ "\">" ++
        String.join (ts.map (fun tag => "<span class=\"pm-tag\">" ++ escapeHtml tag ++ "</span>")) ++
        "</div>"
      else ""

/-- The priority/status badge markup (source lines 283–288 and 566–572).
`seed.priority` and `seed.status` are interpolated RAW — without
`escapeHtml` — both into the `class` attribute and as element text. -/
def badgesHTML (seed : Seed) : String :=
  if jsTruthy seed.priority ∨ jsTruthy seed.status then
    "<div class=\"pm-badges\">" ++
    (if jsTruthy seed.priority then
      "<span class=\"pm-priority pm-priority-" ++ jsOrEmpty seed.priority ++ "\">" ++
      jsOrEmpty seed.priority ++ "</span>" else "") ++
    (if jsTruthy seed.status then
      "<span class=\"pm-status pm-status-" ++ jsOrEmpty seed.status ++ "\">" ++
      jsOrEmpty seed.status ++ "</span>" else "") ++
    "</div>"
  else ""

/-- One `<li>` of the projects list (source lines 278–299); `index` is the
position in the truncated, sorted list. -/
def seedItemHTML (index : Nat) (seed : Seed) : String :=
  "<li class=\"pm-project-item\" data-seed-index=\"" ++ toString index ++ "\">" ++
  "<button class=\"pm-maximize-icon\" data-modal-seed=\"" ++ toString index ++ "\" aria-label=\"Open in modal\">⤢</button>" ++
  "<div class=\"pm-project-header\"><span class=\"pm-project-title\">" ++
  escapeHtml (seedTitle seed) ++ "</span>" ++ badgesHTML seed ++ "</div>" ++
  (if jsTruthy seed.description then
    "<p class=\"pm-project-desc\">" ++ escapeHtml (jsOrEmpty seed.description) ++ "</p>" else "") ++
  tagsHTML "pm-project-tags" seed.tags ++
  "</li>"

/-- The full projects markup for a nonempty seeds array
(source lines 276–301). -/
def projectsHTML (seeds : List Seed) : String :=
  "<ul class=\"pm-projects-list\">" ++
  String.join ((topSeeds seeds).mapIdx (fun i seed => seedItemHTML i seed)) ++
  "</ul>"

/-- `ProtocolIntegration.updateProjects` (source lines 257–307): no-op when
`#pm-projects` is absent; placeholder when `seeds` is absent or empty; else
renders the top-5-by-priority list and caches it for the modal
(`this.cachedSeeds = topSeeds`). -/
def updateProjects (s : WidgetState) (seeds : Option (List Seed)) : WidgetState :=
  match s.page.projects with
  | none => s
  | some _ =>
      match seeds with
      | none =>
          { s with page := { s.page with projects := some "<p class=\"pm-empty\">No active projects shared publicly.</p>" } }
      | some l =>
          if l.length = 0 then
            { s with page := { s.page with projects := some "<p class=\"pm-empty\">No active projects shared publicly.</p>" } }
          else
            { s with
              page := { s.page with projects := some (projectsHTML l) }
              cachedSeeds := some (topSeeds l) }

/-- One expertise card (source lines 335–361); `index` is the position in
the (untruncated) contexts array. -/
def contextCardHTML (index : Nat) (context : Context) : String :=
  "<div class=\"pm-expertise-card\" data-card-index=\"" ++ toString index ++ "\">" ++
  "<button class=\"pm-maximize-icon\" data-modal-context=\"" ++ toString index ++ "\" aria-label=\"Open in modal\">⤢</button>" ++
  "<h3 class=\"pm-expertise-name\">" ++ escapeHtmlOpt context.name ++ "</h3>" ++
  (if jsTruthy context.type then
    "<p class=\"pm-expertise-type\">" ++ escapeHtml (jsOrEmpty context.type) ++ "</p>" else "") ++
  (if jsTruthy context.content then
    "<div class=\"pm-expertise-content\"><p class=\"pm-expertise-preview " ++
    (if needsExpansion context.content then "pm-can-expand" else "") ++
    "\" data-collapsed=\"true\">" ++ escapeHtmlOpt (previewText context.content) ++ "</p>" ++
    (if needsExpansion context.content then
      "<p class=\"pm-expertise-full\" data-full-content style=\"display: none;\">" ++
      escapeHtml (jsOrEmpty context.content) ++ "</p>" ++
      "<button class=\"pm-show-more-btn\" data-expand-btn><span data-expand-text>Show more</span> ▼</button>"
     else "") ++
    "</div>"
   else "") ++
  tagsHTML "pm-expertise-tags" context.tags ++
  "</div>"

/-- The full expertise markup for a nonempty contexts array
(source lines 326–364). -/
def expertiseHTML (contexts : List Context) : String :=
  "<div class=\"pm-expertise-grid\">" ++
  String.join (contexts.mapIdx (fun i c => contextCardHTML i c)) ++
  "</div>"

/-- `ProtocolIntegration.updateExpertise` (source lines 315–372): no-op when
`#pm-expertise` is absent; placeholder when `contexts` is absent or empty;
else renders all cards and caches the full array for the modal
(`this.cachedContexts = contexts`). -/
def updateExpertise (s : WidgetState) (contexts : Option (List Context)) : WidgetState :=
  match s.page.expertise with
  | none => s
  | some _ =>
      match contexts with
      | none =>
          { s with page := { s.page with expertise := some "<p class=\"pm-empty\">No expertise areas shared publicly.</p>" } }
      | some l =>
          if l.length = 0 then
            { s with page := { s.page with expertise := some "<p class=\"pm-empty\">No expertise areas shared publicly.</p>" } }
          else
            { s with
              page := { s.page with expertise := some (expertiseHTML l) }
              cachedContexts := some l }

/-- The last-updated indicator markup (source lines 422–428). -/
def lastUpdatedHTML (timeAgo : String) : String :=
  "<span class=\"pm-indicator\"><span class=\"pm-dot\"></span>Updated " ++ timeAgo ++
  " via <a href=\"https://protocolmemory.com\" target=\"_blank\" rel=\"noopener\">Protocol Memory</a></span>"

/-- `ProtocolIntegration.updateLastUpdatedIndicator` (source lines 417–429):
no-op when `#pm-last-updated` is absent. -/
def updateLastUpdatedIndicator (s : WidgetState) (now : Nat) : WidgetState :=
  match s.page.lastUpdated with
  | none => s
  | some _ =>
      { s with page := { s.page with lastUpdated := some (lastUpdatedHTML (formatRelativeTime s.lastUpdate now)) } }

/-- The offline indicator markup (source lines 438–443). -/
def offlineHTML : String :=
  "<span class=\"pm-indicator pm-offline\"><span class=\"pm-dot\"></span>Showing static content</span>"

/-- `ProtocolIntegration.showStaticContent` (source lines 435–445): replaces
only the last-updated indicator (when present) with the offline marker;
touches nothing else. -/
def showStaticContent (s : WidgetState) : WidgetState :=
  match s.page.lastUpdated with
  | none => s
  | some _ => { s with page := { s.page with lastUpdated := some offlineHTML } }

/-! ## `loadProtocolData` (source lines 83–117) -/

/-- The outcome of `fetch` + `response.ok` + `response.json()` for one call,
as seen by the `try` block. -/
inductive FetchResult where
  /-- `fetch` rejected (network failure). -/
  | networkError
  /-- `response.ok` false: `throw new Error('HTTP …')` (source line 97). -/
  | httpError (status : Nat)
  /-- `response.json()` rejected; note this happens before the assignment
  `this.data = await response.json()`, so `this.data` is untouched. -/
  | parseError
  /-- A parsed payload. -/
  | success (p : Payload)
  deriving Repr, DecidableEq

/-- The `try` block of `loadProtocolData` (source lines 84–111): on success
stores the snapshot, stamps `this.lastUpdate`, and runs the five render
steps in sequence; on failure throws before any state mutation. -/
def loadProtocolDataTry (s : WidgetState) (r : FetchResult) (now : Nat) :
    Except JsError WidgetState :=
  match r with
  | .networkError => .error .networkError
  | .httpError st => .error (.httpStatus st)
  | .parseError => .error .parseError
  | .success p =>
      let s := { s with data := some p, lastUpdate := some now }
      let s := updateCurrentState s p.fields_current_state now
      let s := updateAbout s p.fields_identity p.fields_about
      let s := updateProjects s p.seeds
      let s := updateExpertise s p.contexts
      .ok (updateLastUpdatedIndicator s now)

/-- `ProtocolIntegration.loadProtocolData` (source lines 83–117): the `try`
block with its `catch` — every failure is caught and routed to
`showStaticContent`; the function is total (nothing propagates to the
caller). -/
def loadProtocolData (s : WidgetState) (r : FetchResult) (now : Nat) : WidgetState :=
  match loadProtocolDataTry s r now with
  | .ok s' => s'
  | .error _ => showStaticContent s

/-! ## The modal (source lines 554–637) -/

/-- The seed modal content (source lines 564–579). -/
def seedModalHTML (seed : Seed) : String :=
  "<h3>" ++ escapeHtml (seedTitle seed) ++ "</h3>" ++
  (if jsTruthy seed.priority ∨ jsTruthy seed.status then
    "<div class=\"pm-modal-badges\">" ++
    (if jsTruthy seed.priority then
      "<span class=\"pm-priority pm-priority-" ++ jsOrEmpty seed.priority ++ "\">" ++
      jsOrEmpty seed.priority ++ "</span>" else "") ++
    (if jsTruthy seed.status then
      "<span class=\"pm-status pm-status-" ++ jsOrEmpty seed.status ++ "\">" ++
      jsOrEmpty seed.status ++ "</span>" else "") ++
    "</div><br>"
   else "") ++
  (if jsTruthy seed.description then
    "<p>" ++ escapeHtml (jsOrEmpty seed.description) ++ "</p>" else "") ++
  tagsHTML "pm-project-tags" seed.tags

/-- The context modal content (source lines 582–591): the FULL, untruncated
content. -/
def contextModalHTML (context : Context) : String :=
  "<h3>" ++ escapeHtmlOpt context.name ++ "</h3>" ++
  (if jsTruthy context.type then
    "<p class=\"pm-expertise-type\">" ++ escapeHtml (jsOrEmpty context.type) ++ "</p>" else "") ++
  (if jsTruthy context.content then
    "<p>" ++ escapeHtml (jsOrEmpty context.content) ++ "</p>" else "") ++
  tagsHTML "pm-expertise-tags" context.tags

/-- The `content` local of `openModal` (source lines 560–592): empty unless
the kind matches a present cache and the index is in range. -/
def modalContent (s : WidgetState) (type : String) (index : Nat) : String :=
  if type = "seed" then
    match s.cachedSeeds with
    | some l =>
        match l.get? index with
        | some seed => seedModalHTML seed
        | none => ""
    | none => ""
  else if type = "context" then
    match s.cachedContexts with
    | some l =>
        match l.get? index with
        | some c => contextModalHTML c
        | none => ""
    | none => ""
  else ""

/-- `ProtocolIntegration.setupModalCloseHandlers` (source lines 606–628):
assigns `onclick` on the close button and backdrop when they exist
(assignment, so repeated setup does not accumulate click handlers), and
`addEventListener`s a fresh `keydown` Escape handler each time. -/
def setupModalCloseHandlers (p : Page) : Page :=
  { p with
    closeWired := p.closeWired ∨ p.closeBtnPresent
    backdropWired := p.backdropWired ∨ p.backdropPresent
    escHandlers := p.escHandlers + 1 }

/-- `ProtocolIntegration.openModal` (source lines 554–600). The source runs

```js
const modal = document.getElementById('pm-modal');
const modalBody = modal.querySelector('.pm-modal-body');
if (!modal || !modalBody) return;
```

so when `#pm-modal` is absent, `modal.querySelector` throws a `TypeError`
BEFORE the `!modal` guard can fire; the guard only ever catches a missing
`.pm-modal-body`. Otherwise the body is unconditionally overwritten with
`content` (possibly `""`), the modal is displayed, page scroll is locked and
the close handlers are (re-)installed. -/
def openModal (s : WidgetState) (type : String) (index : Nat) :
    Except JsError WidgetState :=
  if ¬ s.page.modalPresent then
    .error .nullDeref
  else if ¬ s.page.modalBodyPresent then
    .ok s
  else
    let content := modalContent s type index
    .ok { s with
          page := setupModalCloseHandlers
            { s.page with
              modalBody := content
              modalDisplayed := true
              bodyOverflowHidden := true } }

/-- `ProtocolIntegration.closeModal` (source lines 634–637): hides the modal
and restores page scroll — and nothing else; in particular the `keydown`
Escape handler is NOT detached here. -/
def closeModal (p : Page) : Page :=
  { p with modalDisplayed := false, bodyOverflowHidden := false }

/-- A user interaction with the modal. -/
inductive ModalEvent where
  | openSeed (index : Nat)
  | openContext (index : Nat)
  | clickClose
  | clickBackdrop
  | pressEscape
  deriving Repr, DecidableEq

/-- One modal event step. A close-button or backdrop click runs the wired
`onclick` (a plain `closeModal`); an Escape keypress runs every attached
`escHandler`, each of which calls `closeModal` and then detaches itself
(source lines 621–627) — so Escape resets the handler count to zero, while
the click paths leave it untouched. -/
def modalStep (s : WidgetState) (e : ModalEvent) : Except JsError WidgetState :=
  match e with
  | .openSeed i => openModal s "seed" i
  | .openContext i => openModal s "context" i
  | .clickClose =>
      .ok (if s.page.closeWired then { s with page := closeModal s.page } else s)
  | .clickBackdrop =>
      .ok (if s.page.backdropWired then { s with page := closeModal s.page } else s)
  | .pressEscape =>
      .ok (if s.page.escHandlers > 0 then
            { s with page := { closeModal s.page with escHandlers := 0 } }
          else s)

/-- Run a sequence of modal events. -/
def runModal (s : WidgetState) : List ModalEvent → Except JsError WidgetState
  | [] => .ok s
  | e :: es => do
      let s' ← modalStep s e
      runModal s' es

/-! ## The refresh scheduler (source lines 73–77 and 451–475)

`setInterval`/`clearInterval` are modelled by an allocator: `nextId` is the
next fresh timer id (browsers allocate positive ids, so ids start at 1 and
the JS truthiness test `if (this.refreshTimer)` coincides with presence),
`active` the list of live interval timers with their period. `fetches`
counts the immediate (non-timer) invocations of `loadProtocolData`. -/

structure SchedState where
  refreshTimer : Option Nat
  active : List (Nat × Nat)
  nextId : Nat
  fetches : Nat
  deriving Repr, DecidableEq

/-- The scheduler state of a freshly constructed widget
(`this.refreshTimer = null`, source line 64). -/
def initialSched : SchedState :=
  { refreshTimer := none, active := [], nextId := 1, fetches := 0 }

/-- `clearInterval(id)`. -/
def clearIntervalOp (st : SchedState) (id : Nat) : SchedState :=
  { st with active := st.active.filter (fun t => t.1 ≠ id) }

/-- `setInterval(cb, interval)`: allocates a fresh id. -/
def setIntervalOp (st : SchedState) (interval : Nat) : Nat × SchedState :=
  (st.nextId, { st with active := st.active ++ [(st.nextId, interval)], nextId := st.nextId + 1 })

/-- `ProtocolIntegration.startAutoRefresh` (source lines 451–463): clears
the existing timer if any (`if (this.refreshTimer)` — ids are ≥ 1, hence
truthy exactly when present), then schedules `loadProtocolData` at
`config.refreshInterval`. -/
def startAutoRefresh (st : SchedState) (interval : Nat) : SchedState :=
  let st :=
    match st.refreshTimer with
    | some id => clearIntervalOp st id
    | none => st
  let (id, st) := setIntervalOp st interval
  { st with refreshTimer := some id }

/-- `ProtocolIntegration.stopAutoRefresh` (source lines 469–475). -/
def stopAutoRefresh (st : SchedState) : SchedState :=
  match st.refreshTimer with
  | some id => { clearIntervalOp st id with refreshTimer := none }
  | none => st

/-- `ProtocolIntegration.init` (source lines 73–77): one immediate awaited
`loadProtocolData`, then `startAutoRefresh`. -/
def initOp (st : SchedState) (interval : Nat) : SchedState :=
  startAutoRefresh { st with fetches := st.fetches + 1 } interval

/-- The number of `loadProtocolData` invocations fired when one period of
`interval` elapses: one per live interval timer with that period. -/
def fetchesPerTick (st : SchedState) (interval : Nat) : Nat :=
  (st.active.filter (fun t => t.2 = interval)).length

/-- Scheduler-state well-formedness: the live timers are exactly the one
tracked in `this.refreshTimer` (if any), and all ids are positive and below
the allocator counter. Holds for `initialSched` and is preserved by every
operation. -/
def SchedInv (st : SchedState) : Prop :=
  (st.active.map Prod.fst = st.refreshTimer.toList) ∧
  (∀ t ∈ st.active, 1 ≤ t.1 ∧ t.1 < st.nextId) ∧ 1 ≤ st.nextId

/-! ## Sample states used by concrete evaluations -/

/-- A host page providing every mount point (initially empty). -/
def fullPage : Page :=
  { currentState := some "", about := some "", projects := some "",
    expertise := some "", lastUpdated := some "",
    modalPresent := true, modalBodyPresent := true,
    closeBtnPresent := true, backdropPresent := true,
    modalBody := "", modalDisplayed := false, bodyOverflowHidden := false,
    closeWired := false, backdropWired := false, escHandlers := 0 }

/-- A host page providing no mount point at all. -/
def bareP : Page :=
  { currentState := none, about := none, projects := none,
    expertise := none, lastUpdated := none,
    modalPresent := false, modalBodyPresent := false,
    closeBtnPresent := false, backdropPresent := false,
    modalBody := "", modalDisplayed := false, bodyOverflowHidden := false,
    closeWired := false, backdropWired := false, escHandlers := 0 }

/-- A freshly constructed widget on a fully equipped page. -/
def freshWidget : WidgetState :=
  { page := fullPage, data := none, lastUpdate := none,
    cachedSeeds := none, cachedContexts := none }

/-- A seed with only a title. -/
def plainSeed : Seed :=
  { text := some "Ship the widget", title := none, priority := none,
    status := none, description := none, tags := none }

/-- A widget that has rendered one seed (so the modal cache holds exactly
one entry). -/
def oneSeedWidget : WidgetState :=
  { page := fullPage, data := none, lastUpdate := none,
    cachedSeeds := some [plainSeed], cachedContexts := none }

/-- The seed used to exhibit the unescaped `priority` interpolation. -/
def scriptPrioritySeed : Seed :=
  { text := some "t", title := none, priority := some "<script>",
    status := none, description := none, tags := none }

/-- A seed marked `urgent`. -/
def urgentSeed : Seed :=
  { text := some "A", title := none, priority := some "urgent",
    status := none, description := none, tags := none }

/-- A seed marked `high`. -/
def highSeed : Seed :=
  { text := some "B", title := none, priority := some "high",
    status := none, description := none, tags := none }

/-- A 502-character content whose 500-character prefix has whitespace. -/
def spacedContent : String :=
  ⟨'h' :: 'i' :: ' ' :: List.replicate 499 'b'⟩

/-- A single 501-character "word": content with no whitespace at all. -/
def unbrokenWord : String :=
  ⟨List.replicate 501 'a'⟩

/-- The state `openModal` leaves behind when the modal and its body exist
and the looked-up content is empty: the body is cleared, the modal is
displayed with page scroll locked, and the close handlers are installed. -/
def openedEmptyModal (s : WidgetState) : WidgetState :=
  { s with
    page := setupModalCloseHandlers
      { s.page with modalBody := "", modalDisplayed := true, bodyOverflowHidden := true } }

/-- A widget on a page with no mount points (in particular no `#pm-modal`). -/
def bareWidget : WidgetState :=
  { page := bareP, data := none, lastUpdate := none,
    cachedSeeds := some [plainSeed], cachedContexts := none }

/-- A sample current-state payload. -/
def sampleCS : CurrentState :=
  { focus := some "deep work", energy := some (Energy.str "high"),
    location := some "home", availability := some "busy" }

/-- A payload carrying both a precomputed avatar URL and an email. -/
def bothAvatarPayload : Payload :=
  { avatar_url := some "https://cdn.example/avatar.png",
    email := some "person@example.com", custom_bio := none,
    fields_current_state := none, fields_identity := none,
    fields_about := none, seeds := none, contexts := none }

/-! ## C1 — failure path of `loadProtocolData` -/

/-- **C1.** For every prior widget state, fetch outcome and wall-clock time,
`loadProtocolData` is a total function (the `catch` swallows every failure —
nothing is thrown to the caller), and on every non-success outcome (network
error, non-2xx response, parse failure) it behaves exactly as
`showStaticContent`: the stored snapshot `this.data` is unchanged, every
rendered section and the modal caches are unchanged, and only the
last-updated indicator (when the host page has one) is replaced by the
offline marker. -/
theorem loadProtocolData_failure_is_offline_only
    (s : WidgetState) (r : FetchResult) (now : Nat)
    (hfail : ∀ p, r ≠ FetchResult.success p) :
    loadProtocolData s r now = showStaticContent s ∧
    (loadProtocolData s r now).data = s.data ∧
    (loadProtocolData s r now).page.currentState = s.page.currentState ∧
    (loadProtocolData s r now).page.about = s.page.about ∧
    (loadProtocolData s r now).page.projects = s.page.projects ∧
    (loadProtocolData s r now).page.expertise = s.page.expertise ∧
    (loadProtocolData s r now).page.modalBody = s.page.modalBody ∧
    (loadProtocolData s r now).cachedSeeds = s.cachedSeeds ∧
    (loadProtocolData s r now).cachedContexts = s.cachedContexts ∧
    (loadProtocolData s r now).page.lastUpdated =
      (match s.page.lastUpdated with
       | none => none
       | some _ => some offlineHTML) := by
  have hload : loadProtocolData s r now = showStaticContent s := by
    cases r with
    | networkError => rfl
    | httpError st => rfl
    | parseError => rfl
    | success p => exact absurd rfl (hfail p)
  refine ⟨hload, ?_⟩
  rw [hload]
  unfold showStaticContent
  cases hlu : s.page.lastUpdated <;> simp [hlu]

/-- Witness for C1 at a concrete state and a concrete network failure. -/
theorem loadProtocolData_failure_is_offline_only_witness :
    loadProtocolData freshWidget FetchResult.networkError 0 = showStaticContent freshWidget ∧
    (loadProtocolData freshWidget FetchResult.networkError 0).data = freshWidget.data ∧
    (loadProtocolData freshWidget FetchResult.networkError 0).page.currentState = freshWidget.page.currentState ∧
    (loadProtocolData freshWidget FetchResult.networkError 0).page.about = freshWidget.page.about ∧
    (loadProtocolData freshWidget FetchResult.networkError 0).page.projects = freshWidget.page.projects ∧
    (loadProtocolData freshWidget FetchResult.networkError 0).page.expertise = freshWidget.page.expertise ∧
    (loadProtocolData freshWidget FetchResult.networkError 0).page.modalBody = freshWidget.page.modalBody ∧
    (loadProtocolData freshWidget FetchResult.networkError 0).cachedSeeds = freshWidget.cachedSeeds ∧
    (loadProtocolData freshWidget FetchResult.networkError 0).cachedContexts = freshWidget.cachedContexts ∧
    (loadProtocolData freshWidget FetchResult.networkError 0).page.lastUpdated =
      (match freshWidget.page.lastUpdated with
       | none => none
       | some _ => some offlineHTML) :=
  loadProtocolData_failure_is_offline_only freshWidget FetchResult.networkError 0
    (fun _ h => FetchResult.noConfusion h)

/-! ## C2 — HTML escaping -/

/-- A text-node serialization of one character never contains a raw angle
bracket. -/
theorem serializeTextChar_no_angle (c : Char) :
    '<' ∉ serializeTextChar c ∧ '>' ∉ serializeTextChar c := by
  unfold serializeTextChar
  split_ifs with h1 h2 h3 h4 <;> simp_all
  exact ⟨fun hc => h2 hc.symm, fun hc => h3 hc.symm⟩

/-- Straight quote characters serialize to themselves: `escapeHtml` does
not encode them. -/
theorem serializeTextChar_quote :
    serializeTextChar '"' = ['"'] ∧ serializeTextChar '\'' = ['\''] := by
  constructor <;> rfl

set_option maxRecDepth 20000 in
/-- **C2, counterexample.** The claim fails in two ways on concrete inputs.
(1) Quotes are not encoded: `escapeHtml` maps `"` and `'` to themselves, so
quotes never "appear only in encoded form" in the produced markup.
(2) Not every payload string interpolated by the render functions passes
through `escapeHtml`: `updateProjects` interpolates `seed.priority` (and
`seed.status`) raw, so a priority of `"<script>"` puts a literal `<script>`
tag into the produced markup. -/
theorem escapeHtml_claim_counterexample :
    escapeHtml "\"" = "\"" ∧
    escapeHtml "'" = "'" ∧
    badgesHTML scriptPrioritySeed =
      "<div class=\"pm-badges\"><span class=\"pm-priority pm-priority-<script>\"><script></span></div>" ∧
    "<script>".data <:+: (projectsHTML [scriptPrioritySeed]).data := by
  refine ⟨rfl, rfl, rfl, ?_⟩
  decide

/-- **C2, amended.** Every string that the render functions do pass through
`escapeHtml` (titles, descriptions, tags, names, types, contents, state
fields) is safe against markup injection in element-content position: its
escaped form contains no raw `<` and no raw `>` whatsoever, so
markup-like sequences such as `<script>` in those fields render as literal
text. (Quotes are passed through unencoded, and `seed.priority` /
`seed.status` are interpolated without escaping — the two deviations
exhibited by the counterexample.) -/
theorem escapeHtml_no_raw_angle_brackets (text : String) :
    '<' ∉ (escapeHtml text).data ∧ '>' ∉ (escapeHtml text).data := by
  unfold escapeHtml
  split_ifs with h
  · simp
  · unfold serializeTextNode
    constructor <;>
    · intro hmem
      rw [show (String.mk (text.data.flatMap serializeTextChar)).data
            = text.data.flatMap serializeTextChar from rfl] at hmem
      rcases List.mem_flatMap.mp hmem with ⟨c, _, hc⟩
      exact absurd hc (by
        first
        | exact (serializeTextChar_no_angle c).1
        | exact (serializeTextChar_no_angle c).2)

/-! ## C3 — the priority ordering -/

/-- **C3.** Evaluation of the code at the failing input: the source's own
`priorityOrder` table assigns `urgent` the rank `0` (clearly intending it
to sort first), but the comparator reads it through
`priorityOrder[a.priority] || 3`, and in JavaScript the number `0` is
falsy — so an `urgent` seed actually gets rank `3` (tied with `low` and
unknown priorities) and the input `[urgent, high]` renders as
`[high, urgent]`, contradicting the claimed rank table
`{urgent: 0, high: 1, normal: 2, low: 3}`. -/
theorem seedRank_urgent_is_last_code_bug :
    priorityOrder "urgent" = some 0 ∧
    seedRank urgentSeed = 3 ∧
    seedRank highSeed = 1 ∧
    topSeeds [urgentSeed, highSeed] = [highSeed, urgentSeed] := by
  decide

/-! ## C4 — expertise preview truncation -/

/-- If a character list contains any whitespace, `stripTailWord`
(`.replace(/\s+\S*$/, '')`) cuts it exactly at the start of its last
whitespace run: the list decomposes as the kept part, then a nonempty
all-whitespace run, then an all-non-whitespace tail. -/
theorem stripTailWord_decomp (l : List Char) (hws : ∃ c ∈ l, isJsWs c) :
    ∃ w b, l = stripTailWord l ++ w ++ b ∧ w ≠ [] ∧
      (∀ c ∈ w, isJsWs c = true) ∧ (∀ c ∈ b, isJsWs c = false) := by
  obtain ⟨c0, hc0l, hc0⟩ := hws
  have hr1ne : l.reverse.dropWhile (fun c => !(isJsWs c)) ≠ [] := by
    intro h
    have hall := List.dropWhile_eq_nil_iff.mp h c0 (List.mem_reverse.mpr hc0l)
    simp [hc0] at hall
  have hempty : (l.reverse.dropWhile (fun c => !(isJsWs c))).isEmpty = false := by
    simpa [List.isEmpty_iff] using hr1ne
  have hstrip : stripTailWord l =
      ((l.reverse.dropWhile (fun c => !(isJsWs c))).dropWhile isJsWs).reverse := by
    simp [stripTailWord, hempty]
  refine ⟨((l.reverse.dropWhile (fun c => !(isJsWs c))).takeWhile isJsWs).reverse,
          (l.reverse.takeWhile (fun c => !(isJsWs c))).reverse, ?_, ?_, ?_, ?_⟩
  · rw [hstrip]
    have h1 : l.reverse.takeWhile (fun c => !(isJsWs c)) ++
        l.reverse.dropWhile (fun c => !(isJsWs c)) = l.reverse :=
      List.takeWhile_append_dropWhile _ _
    have h2 : (l.reverse.dropWhile (fun c => !(isJsWs c))).takeWhile isJsWs ++
        (l.reverse.dropWhile (fun c => !(isJsWs c))).dropWhile isJsWs =
        l.reverse.dropWhile (fun c => !(isJsWs c)) :=
      List.takeWhile_append_dropWhile _ _
    have hl : l = (l.reverse.takeWhile (fun c => !(isJsWs c)) ++
          ((l.reverse.dropWhile (fun c => !(isJsWs c))).takeWhile isJsWs ++
           (l.reverse.dropWhile (fun c => !(isJsWs c))).dropWhile isJsWs)).reverse := by
      rw [h2, h1, List.reverse_reverse]
    conv_lhs => rw [hl]
    simp only [List.reverse_append, List.append_assoc]
  · cases hcons : l.reverse.dropWhile (fun c => !(isJsWs c)) with
    | nil => exact absurd hcons hr1ne
    | cons x xs =>
        have hx : isJsWs x = true := by
          have h0 := List.head?_dropWhile_not (fun c => !(isJsWs c)) l.reverse
          rw [hcons] at h0
          simpa using h0
        simp [List.takeWhile_cons, hx]
  · intro c hc
    exact List.mem_takeWhile_imp (List.mem_reverse.mp hc)
  · intro c hc
    have := List.mem_takeWhile_imp (List.mem_reverse.mp hc)
    simpa using this

/-- **C4, amended.** Content within the 500-character budget renders in
full with no expand control (`needsExpansion = false`); longer content gets
`needsExpansion = true` (which attaches the expand control and the ellipsis
suffix in `contextCardHTML`), and whenever the 500-character prefix contains
any whitespace, the preview body is the prefix truncated exactly at the
start of the LAST whitespace run of the prefix — never in the middle of a
word. (When the prefix contains no whitespace at all there is no such
boundary, and the preview is the raw 500-character prefix — the mid-word
cut exhibited by the counterexample.) -/
theorem previewText_boundary_truncation (content : String) :
    (content.length ≤ PREVIEW_LENGTH →
       needsExpansion (some content) = false ∧
       previewText (some content) = some content) ∧
    (PREVIEW_LENGTH < content.length →
       needsExpansion (some content) = true ∧
       previewText (some content) = some ⟨previewChars content.data⟩ ∧
       ((∃ c ∈ content.data.take PREVIEW_LENGTH, isJsWs c) →
         ∃ w b,
           content.data.take PREVIEW_LENGTH =
             stripTailWord (content.data.take PREVIEW_LENGTH) ++ w ++ b ∧
           w ≠ [] ∧ (∀ c ∈ w, isJsWs c = true) ∧ (∀ c ∈ b, isJsWs c = false))) := by
  constructor
  · intro hle
    have hne : needsExpansion (some content) = false := by
      simp only [needsExpansion, gt_iff_lt, decide_eq_false_iff_not, not_lt]
      exact hle
    refine ⟨hne, ?_⟩
    simp [previewText, hne]
  · intro hgt
    have hne : needsExpansion (some content) = true := by
      simp only [needsExpansion, gt_iff_lt, decide_eq_true_eq]
      exact hgt
    refine ⟨hne, ?_, ?_⟩
    · simp [previewText, hne]
    · intro hws
      exact stripTailWord_decomp _ hws

set_option maxRecDepth 40000 in
/-- Witness for the amended C4 at a concrete over-budget content: the
preview truncates at the whitespace after `hi`. -/
theorem previewText_boundary_truncation_witness :
    needsExpansion (some spacedContent) = true ∧
    previewText (some spacedContent) = some ⟨previewChars spacedContent.data⟩ ∧
    (∃ w b,
      spacedContent.data.take PREVIEW_LENGTH =
        stripTailWord (spacedContent.data.take PREVIEW_LENGTH) ++ w ++ b ∧
      w ≠ [] ∧ (∀ c ∈ w, isJsWs c = true) ∧ (∀ c ∈ b, isJsWs c = false)) :=
  have T := (previewText_boundary_truncation spacedContent).2 (by decide)
  ⟨T.1, T.2.1, T.2.2 (by decide)⟩

set_option maxRecDepth 40000 in
/-- **C4, counterexample.** For content that is one 501-character word (no
whitespace anywhere), the code still produces an ellipsised preview — the
raw 500-character prefix — cutting the word in the middle, contradicting
"truncated at the last whitespace boundary … never in the middle of a
word": there is no whitespace boundary, and the character after the cut is
part of the same word. -/
theorem previewText_midword_counterexample :
    needsExpansion (some unbrokenWord) = true ∧
    previewText (some unbrokenWord) =
      some ⟨List.replicate 500 'a' ++ ['.', '.', '.']⟩ ∧
    unbrokenWord.data.all (fun c => !(isJsWs c)) = true := by
  refine ⟨by decide, by decide, by decide⟩

/-! ## C5 / C6 — the modal guards -/

/-- **C5, counterexample.** With one cached seed and the modal mounts
present, `openModal('seed', 5)` (index out of range) is NOT a no-op: it
succeeds and mutates the DOM — the modal body is overwritten with the empty
string, the modal is displayed, page scroll is locked and an Escape handler
is attached. The resulting state differs from the original. -/
theorem openModal_out_of_range_counterexample :
    openModal oneSeedWidget "seed" 5 = Except.ok (openedEmptyModal oneSeedWidget) ∧
    openedEmptyModal oneSeedWidget ≠ oneSeedWidget ∧
    (openedEmptyModal oneSeedWidget).page.modalDisplayed = true := by
  refine ⟨rfl, by decide, rfl⟩

/-- **C5, amended.** For a kind of `'seed'` or `'context'` with an
out-of-range index (or an absent cache), `openModal` does not throw
provided the modal container exists, but it is not a no-op: it opens the
modal with empty content — the modal body is cleared, the modal is shown,
page scroll is locked and close handlers are installed. (Only a missing
`.pm-modal-body` makes it a true no-op; a missing `#pm-modal` throws, see
C6.) -/
theorem openModal_out_of_range_opens_empty
    (s : WidgetState) (type : String) (index : Nat)
    (hm : s.page.modalPresent = true) (hb : s.page.modalBodyPresent = true)
    (hoor : (type = "seed" ∧ ∀ l, s.cachedSeeds = some l → l.length ≤ index) ∨
            (type = "context" ∧ ∀ l, s.cachedContexts = some l → l.length ≤ index)) :
    openModal s type index = Except.ok (openedEmptyModal s) := by
  have hcontent : modalContent s type index = "" := by
    rcases hoor with ⟨htype, hlen⟩ | ⟨htype, hlen⟩ <;> subst htype
    · cases hc : s.cachedSeeds with
      | none => simp [modalContent, hc]
      | some l =>
          have hget : l[index]? = none := List.getElem?_eq_none (hlen l hc)
          simp [modalContent, hc, hget]
    · cases hc : s.cachedContexts with
      | none => simp [modalContent, hc]
      | some l =>
          have hget : l[index]? = none := List.getElem?_eq_none (hlen l hc)
          simp [modalContent, hc, hget]
  unfold openModal
  rw [hm, hb]
  simp [hcontent, openedEmptyModal]

/-- Witness for the amended C5: `openModal('context', 0)` with no context
cache at all still opens an empty modal. -/
theorem openModal_out_of_range_opens_empty_witness :
    openModal oneSeedWidget "context" 0 = Except.ok (openedEmptyModal oneSeedWidget) :=
  openModal_out_of_range_opens_empty oneSeedWidget "context" 0 rfl rfl
    (Or.inr ⟨rfl, fun l hl => by simp [oneSeedWidget] at hl⟩)

/-- **C6.** Evaluation at the failing input: when the host page omits the
mount points, every renderer is a faithful no-op (as the claim says) — but
`openModal` is not: with `#pm-modal` absent it throws a `TypeError`
(`modal.querySelector` on `null`, source line 556) before its own
`if (!modal || !modalBody) return` guard (line 558) can run, contradicting
the claim that every modal operation is a no-op when its mount point is
missing. -/
theorem openModal_missing_modal_throws_code_bug :
    updateCurrentState bareWidget (some sampleCS) 0 = bareWidget ∧
    updateAbout bareWidget none none = bareWidget ∧
    updateProjects bareWidget (some [plainSeed]) = bareWidget ∧
    updateExpertise bareWidget (some []) = bareWidget ∧
    updateLastUpdatedIndicator bareWidget 0 = bareWidget ∧
    showStaticContent bareWidget = bareWidget ∧
    openModal bareWidget "seed" 0 = Except.error JsError.nullDeref := by
  refine ⟨rfl, rfl, rfl, rfl, rfl, rfl, rfl⟩

/-! ## C7 — avatar hash derivation -/

/-- Every digit character produced is a lowercase hex digit. -/
theorem hexDigitChar_mem (n : Nat) : hexDigitChar n ∈ hexCharsLower := by
  unfold hexDigitChar hexCharsLower
  rcases Nat.lt_or_ge n 16 with h | h
  · interval_cases n <;> decide
  · rw [List.getD_eq_getElem?_getD, List.getElem?_eq_none (by simpa using h)]
    decide

/-- Every character of a `toString(16)` digit rendering is a lowercase hex
digit, for every fuel. -/
theorem natToHexFuel_mem (f : Nat) : ∀ n, ∀ c ∈ natToHexFuel f n, c ∈ hexCharsLower := by
  induction f with
  | zero =>
      intro n c hc
      simp only [natToHexFuel, List.mem_singleton] at hc
      subst hc
      exact hexDigitChar_mem _
  | succ f ih =>
      intro n c hc
      simp only [natToHexFuel] at hc
      split at hc
      · simp only [List.mem_singleton] at hc
        subst hc
        exact hexDigitChar_mem _
      · rw [List.mem_append] at hc
        rcases hc with hc | hc
        · exact ih _ c hc
        · simp only [List.mem_singleton] at hc
          subst hc
          exact hexDigitChar_mem _

/-- Every character of a `toString(16)` rendering is a lowercase hex
digit. -/
theorem natToHex_mem (n : Nat) : ∀ c ∈ natToHex n, c ∈ hexCharsLower :=
  natToHexFuel_mem n n

/-- A number below 16 renders as its single digit, whatever the fuel. -/
theorem natToHexFuel_small (f n : Nat) (h : n < 16) :
    natToHexFuel f n = [hexDigitChar n] := by
  cases f with
  | zero => simp [natToHexFuel, Nat.mod_eq_of_lt h]
  | succ f => simp [natToHexFuel, h]

/-- For a byte, `toString(16)` renders one or two digits. -/
theorem natToHex_length (b : Nat) (hb : b < 256) :
    1 ≤ (natToHex b).length ∧ (natToHex b).length ≤ 2 := by
  rcases Nat.lt_or_ge b 16 with h | h
  · rw [natToHex, natToHexFuel_small _ _ h]
    simp
  · obtain ⟨f, rfl⟩ : ∃ f, b = f + 1 := ⟨b - 1, by omega⟩
    have h16 : (f + 1) / 16 < 16 := by omega
    simp only [natToHex, natToHexFuel]
    rw [if_neg (by omega), natToHexFuel_small _ _ h16]
    simp

/-- For a byte, `toString(16).padStart(2, '0')` is exactly two digits. -/
theorem byteHex_length (b : Nat) (hb : b < 256) : (byteHex b).length = 2 := by
  obtain ⟨h1, h2⟩ := natToHex_length b hb
  unfold byteHex padStart2
  simp only [List.length_append, List.length_replicate]
  omega

/-- Every character of `byteHex` is a lowercase hex digit. -/
theorem byteHex_mem (b : Nat) : ∀ c ∈ byteHex b, c ∈ hexCharsLower := by
  intro c hc
  unfold byteHex padStart2 at hc
  rw [List.mem_append] at hc
  rcases hc with hc | hc
  · rw [List.eq_of_mem_replicate hc]
    decide
  · exact natToHex_mem b c hc

/-- Every serialized digest byte is below 256. -/
theorem be4Bytes_lt (n : Nat) : ∀ b ∈ be4Bytes n, b < 256 := by
  intro b hb
  simp only [be4Bytes, List.mem_cons, List.not_mem_nil, or_false] at hb
  rcases hb with h | h | h | h <;> subst h <;> exact Nat.mod_lt _ (by omega)

/-- The SHA-256 digest is exactly 32 bytes. -/
theorem sha256Bytes_length (msg : List Nat) : (sha256Bytes msg).length = 32 := by
  unfold sha256Bytes be4Bytes
  simp

/-- Every SHA-256 digest byte is below 256. -/
theorem sha256Bytes_lt (msg : List Nat) : ∀ b ∈ sha256Bytes msg, b < 256 := by
  intro b hb
  unfold sha256Bytes at hb
  simp only [List.mem_append] at hb
  rcases hb with ((((((h | h) | h) | h) | h) | h) | h) | h <;> exact be4Bytes_lt _ _ h

/-- Hex-encoding a list of bytes doubles its length. -/
theorem flatMap_byteHex_length (bytes : List Nat) (h : ∀ b ∈ bytes, b < 256) :
    (bytes.flatMap byteHex).length = 2 * bytes.length := by
  induction bytes with
  | nil => simp
  | cons b bs ih =>
      simp only [List.flatMap_cons, List.length_append, List.length_cons]
      rw [byteHex_length b (h b (List.mem_cons_self b bs)),
          ih (fun x hx => h x (List.mem_cons_of_mem b hx))]
      omega

/-- `GravatarHelper.sha256` always renders a 64-character string of
lowercase hex digits. -/
theorem gravatarSha256_hex (s : String) :
    (gravatarSha256 s).length = 64 ∧
    ∀ c ∈ (gravatarSha256 s).data, c ∈ hexCharsLower := by
  constructor
  · show (bytesToHex (sha256Bytes (utf8Encode s))).length = 64
    unfold bytesToHex
    show ((sha256Bytes (utf8Encode s)).flatMap byteHex).length = 64
    rw [flatMap_byteHex_length _ (sha256Bytes_lt _), sha256Bytes_length]
  · intro c hc
    have hc' : c ∈ (sha256Bytes (utf8Encode s)).flatMap byteHex := hc
    rcases List.mem_flatMap.mp hc' with ⟨b, _, hcb⟩
    exact byteHex_mem b c hcb

/-- **C7, counterexample.** The guard `!email` tests the RAW input, not the
normalized one: the whitespace-only input `" "` is truthy, passes the
guard, normalizes to `""`, and yields a Gravatar URL embedding the SHA-256
digest of the empty string — a "digest computed from an empty value
silently treated as valid", which the claim rules out. It also refutes the
claimed determinism reading literally: `""` and `" "` have the same
normalized form yet produce different results (`null` vs. a URL). -/
theorem getAvatarUrl_hashes_empty_counterexample :
    normalizeEmail " " = "" ∧
    getAvatarUrl (some " ") 256 "identicon" =
      some ("https://www.gravatar.com/avatar/" ++ gravatarSha256 "" ++
            "?s=" ++ toString 256 ++ "&d=" ++ "identicon") ∧
    getAvatarUrl (some "") 256 "identicon" = none ∧
    getAvatarUrl (some " ") 256 "identicon" ≠ getAvatarUrl (some "") 256 "identicon" := by
  have h1 : normalizeEmail " " = "" := by decide
  have h2 : getAvatarUrl (some " ") 256 "identicon" =
      some ("https://www.gravatar.com/avatar/" ++ gravatarSha256 "" ++
            "?s=" ++ toString 256 ++ "&d=" ++ "identicon") := by
    simp [getAvatarUrl, h1]
  have h3 : getAvatarUrl (some "") 256 "identicon" = none := rfl
  refine ⟨h1, h2, h3, ?_⟩
  rw [h2, h3]
  exact fun h => Option.noConfusion h

/-- **C7, amended.** `getAvatarUrl` returns `null` for non-string and for
RAW-empty input; for every other string it returns the templated URL of the
SHA-256 digest of the lowercased, trimmed input. The digest is a
64-character lowercase-hexadecimal string, and derivation is deterministic
on the normalized form among inputs passing the guard: any two nonempty
inputs with the same normalized form (case or surrounding-whitespace
variants) get identical URLs. (A whitespace-only input passes the guard and
is hashed as the empty string — the deviation of the counterexample.) -/
theorem getAvatarUrl_contract (size : Nat) (dflt : String) :
    getAvatarUrl none size dflt = none ∧
    getAvatarUrl (some "") size dflt = none ∧
    (∀ e : String, e ≠ "" →
       getAvatarUrl (some e) size dflt =
         some ("https://www.gravatar.com/avatar/" ++ gravatarSha256 (normalizeEmail e) ++
               "?s=" ++ toString size ++ "&d=" ++ dflt)) ∧
    (∀ e₁ e₂ : String, e₁ ≠ "" → e₂ ≠ "" → normalizeEmail e₁ = normalizeEmail e₂ →
       getAvatarUrl (some e₁) size dflt = getAvatarUrl (some e₂) size dflt) ∧
    (∀ s : String, (gravatarSha256 s).length = 64 ∧
       ∀ c ∈ (gravatarSha256 s).data, c ∈ hexCharsLower) := by
  have hurl : ∀ e : String, e ≠ "" →
      getAvatarUrl (some e) size dflt =
        some ("https://www.gravatar.com/avatar/" ++ gravatarSha256 (normalizeEmail e) ++
              "?s=" ++ toString size ++ "&d=" ++ dflt) := by
    intro e he
    simp [getAvatarUrl, he]
  refine ⟨rfl, rfl, hurl, ?_, gravatarSha256_hex⟩
  intro e₁ e₂ h1 h2 hnorm
  rw [hurl e₁ h1, hurl e₂ h2, hnorm]

/-- Witness for the amended C7: a case- and whitespace-variant pair of the
same address yields identical URLs, and the digest of the normalized form
has 64 characters. -/
theorem getAvatarUrl_contract_witness :
    getAvatarUrl (some "User@Example.COM ") 256 "identicon" =
      getAvatarUrl (some " user@example.com") 256 "identicon" ∧
    (gravatarSha256 "user@example.com").length = 64 :=
  have T := getAvatarUrl_contract 256 "identicon"
  ⟨T.2.2.2.1 "User@Example.COM " " user@example.com" (by decide) (by decide) (by decide),
   (T.2.2.2.2 "user@example.com").1⟩

/-! ## C8 — avatar precedence in the about section -/

/-- A string append with a nonempty left part is nonempty. -/
theorem append_ne_empty_of_left (a b : String) (ha : a ≠ "") : a ++ b ≠ "" := by
  intro h
  apply ha
  have hd : a.data ++ b.data = [] := by
    have := congrArg String.data h
    simpa [String.data_append] using this
  have hnil : a.data = [] := (List.append_eq_nil.mp hd).1
  cases a
  simp_all

/-- The templated Gravatar URL is never the empty string. -/
theorem gravatarUrl_ne_empty (x y z w : String) :
    "https://www.gravatar.com/avatar/" ++ x ++ y ++ z ++ w ++ "identicon" ≠ "" := by
  intro h
  have := congrArg String.data h
  simp [String.data_append] at this

/-- **C8.** The avatar slot of the about-section render follows the claimed
precedence: (1) a truthy (non-empty) precomputed `avatar_url` is used
unchanged, regardless of `email`; (2) otherwise a truthy `email` produces
the templated Gravatar URL embedding the digest of the normalized identity,
the size 256 and the `identicon` fallback; (3) otherwise no avatar element
is rendered. The about markup always begins with exactly this avatar
slot. -/
theorem aboutAvatarHTML_precedence (data : Option Payload) :
    (jsTruthy (data.bind (·.avatar_url)) = true →
       aboutAvatarHTML data =
         "<div class=\"profile-avatar\" style=\"background-image: url('" ++
         jsOrEmpty (data.bind (·.avatar_url)) ++ "')\"></div>") ∧
    (jsTruthy (data.bind (·.avatar_url)) = false →
     ∀ e, data.bind (·.email) = some e → e ≠ "" →
       aboutAvatarHTML data =
         "<div class=\"profile-avatar\" style=\"background-image: url('" ++
         ("https://www.gravatar.com/avatar/" ++ gravatarSha256 (normalizeEmail e) ++
          "?s=" ++ toString 256 ++ "&d=" ++ "identicon") ++ "')\"></div>") ∧
    (jsTruthy (data.bind (·.avatar_url)) = false →
     jsTruthy (data.bind (·.email)) = false →
       aboutAvatarHTML data = "") ∧
    (∀ identity about,
       (aboutAvatarHTML data).data <+: (aboutHTML data identity about).data) := by
  refine ⟨?_, ?_, ?_, ?_⟩
  · intro h
    simp [aboutAvatarHTML, h]
  · intro h e he hne
    have htr : jsTruthy (data.bind (·.email)) = true := by
      rw [he]; simp [jsTruthy, hne]
    have hget : getAvatarUrl (data.bind (·.email)) 256 "identicon" =
        some ("https://www.gravatar.com/avatar/" ++ gravatarSha256 (normalizeEmail e) ++
              "?s=" ++ toString 256 ++ "&d=" ++ "identicon") := by
      rw [he]; simp [getAvatarUrl, hne]
    have hne2 : ("https://www.gravatar.com/avatar/" ++ gravatarSha256 (normalizeEmail e) ++
        "?s=" ++ toString 256 ++ "&d=" ++ "identicon") ≠ "" := by
      have := gravatarUrl_ne_empty (gravatarSha256 (normalizeEmail e)) "?s=" (toString 256) "&d="
      simpa using this
    simp only [aboutAvatarHTML]
    rw [h, htr, hget]
    simp [jsOrEmpty, jsTruthy, hne2]
  · intro h1 h2
    simp [aboutAvatarHTML, h1, h2]
  · intro identity about
    simp only [aboutHTML, String.data_append, List.append_assoc]
    exact List.prefix_append _ _

/-- Witness for C8: with both sources present, the precomputed URL wins. -/
theorem aboutAvatarHTML_precedence_witness :
    aboutAvatarHTML (some bothAvatarPayload) =
      "<div class=\"profile-avatar\" style=\"background-image: url('" ++
      jsOrEmpty ((some bothAvatarPayload).bind (·.avatar_url)) ++ "')\"></div>" :=
  (aboutAvatarHTML_precedence (some bothAvatarPayload)).1 (by decide)

/-! ## C9 — refresh-scheduler idempotence -/

/-- Under the well-formedness invariant, one `startAutoRefresh` leaves
exactly one live timer — a fresh one at the requested interval — and
preserves the invariant. -/
theorem startAutoRefresh_spec (st : SchedState) (interval : Nat) (hinv : SchedInv st) :
    (startAutoRefresh st interval).active = [(st.nextId, interval)] ∧
    (startAutoRefresh st interval).refreshTimer = some st.nextId ∧
    (startAutoRefresh st interval).nextId = st.nextId + 1 ∧
    (startAutoRefresh st interval).fetches = st.fetches ∧
    SchedInv (startAutoRefresh st interval) := by
  obtain ⟨hmap, hids, hpos⟩ := hinv
  have hactive : (startAutoRefresh st interval).active = [(st.nextId, interval)] ∧
      (startAutoRefresh st interval).refreshTimer = some st.nextId ∧
      (startAutoRefresh st interval).nextId = st.nextId + 1 ∧
      (startAutoRefresh st interval).fetches = st.fetches := by
    cases hrt : st.refreshTimer with
    | none =>
        have hnil : st.active = [] := by
          rw [hrt] at hmap
          simpa using congrArg List.length hmap
        simp [startAutoRefresh, setIntervalOp, hrt, hnil]
    | some id =>
        rw [hrt] at hmap
        obtain ⟨x, xs, hcons⟩ : ∃ x xs, st.active = x :: xs := by
          cases hc : st.active with
          | nil => rw [hc] at hmap; simp at hmap
          | cons x xs => exact ⟨x, xs, rfl⟩
        rw [hcons] at hmap
        simp only [List.map_cons, Option.toList_some] at hmap
        have hx : x.1 = id := (List.cons_eq_cons.mp hmap).1
        have hxs : xs = [] := by
          have := (List.cons_eq_cons.mp hmap).2
          simpa using this
        have hfilter : st.active.filter (fun t => t.1 ≠ id) = [] := by
          rw [hcons, hxs]
          simp [List.filter, hx]
        simp [startAutoRefresh, setIntervalOp, clearIntervalOp, hrt, hfilter]
        intro a b hab
        rw [hcons, hxs] at hab
        simp only [List.mem_singleton] at hab
        have ha : a = x.1 := by rw [← hab]
        rw [ha, hx]
  obtain ⟨h1, h2, h3, h4⟩ := hactive
  refine ⟨h1, h2, h3, h4, ?_⟩
  refine ⟨?_, ?_, ?_⟩
  · rw [h1, h2]; rfl
  · intro t ht
    rw [h1] at ht
    simp only [List.mem_singleton] at ht
    subst ht
    rw [h3]
    exact ⟨hpos, by omega⟩
  · rw [h3]; omega

/-- **C9.** `init` (`start` of the spec's scheduler) performs exactly one
immediate fetch and schedules one interval timer for `fetchAndApply`, having
first cleared any running timer: after a start, and equally after a double
start, exactly one live timer exists, it runs at the configured interval,
and exactly one timer-driven fetch fires per interval tick — never two. -/
theorem scheduler_start_idempotent (st : SchedState) (interval : Nat) (hinv : SchedInv st) :
    (initOp st interval).fetches = st.fetches + 1 ∧
    (initOp st interval).active.map Prod.snd = [interval] ∧
    fetchesPerTick (initOp st interval) interval = 1 ∧
    SchedInv (initOp st interval) ∧
    (initOp (initOp st interval) interval).fetches = st.fetches + 2 ∧
    (initOp (initOp st interval) interval).active.map Prod.snd = [interval] ∧
    fetchesPerTick (initOp (initOp st interval) interval) interval = 1 := by
  have hinv1 : SchedInv { st with fetches := st.fetches + 1 } := by
    obtain ⟨hmap, hids, hpos⟩ := hinv
    exact ⟨hmap, hids, hpos⟩
  obtain ⟨a1, r1, n1, f1, i1⟩ := startAutoRefresh_spec { st with fetches := st.fetches + 1 } interval hinv1
  have hfet1 : (initOp st interval).fetches = st.fetches + 1 := by
    show (startAutoRefresh { st with fetches := st.fetches + 1 } interval).fetches = st.fetches + 1
    rw [f1]
  have hact1 : (initOp st interval).active = [(st.nextId, interval)] := a1
  have htick1 : fetchesPerTick (initOp st interval) interval = 1 := by
    unfold fetchesPerTick
    rw [hact1]
    simp
  have hinv2 : SchedInv { initOp st interval with fetches := (initOp st interval).fetches + 1 } := by
    obtain ⟨hmap, hids, hpos⟩ := i1
    exact ⟨hmap, hids, hpos⟩
  obtain ⟨a2, r2, n2, f2, i2⟩ :=
    startAutoRefresh_spec { initOp st interval with fetches := (initOp st interval).fetches + 1 } interval hinv2
  have hfet2 : (initOp (initOp st interval) interval).fetches = st.fetches + 2 := by
    show (startAutoRefresh { initOp st interval with fetches := (initOp st interval).fetches + 1 }
          interval).fetches = st.fetches + 2
    rw [f2]
    simp only [hfet1]
  have hact2 : (initOp (initOp st interval) interval).active =
      [((initOp st interval).nextId, interval)] := a2
  refine ⟨hfet1, by rw [hact1]; rfl, htick1, i1, hfet2, by rw [hact2]; rfl, ?_⟩
  unfold fetchesPerTick
  rw [hact2]
  simp

/-- Witness for C9 at the freshly constructed scheduler state and the
default 5-minute interval. -/
theorem scheduler_start_idempotent_witness :
    (initOp initialSched 300000).fetches = initialSched.fetches + 1 ∧
    (initOp initialSched 300000).active.map Prod.snd = [300000] ∧
    fetchesPerTick (initOp initialSched 300000) 300000 = 1 ∧
    SchedInv (initOp initialSched 300000) ∧
    (initOp (initOp initialSched 300000) 300000).fetches = initialSched.fetches + 2 ∧
    (initOp (initOp initialSched 300000) 300000).active.map Prod.snd = [300000] ∧
    fetchesPerTick (initOp (initOp initialSched 300000) 300000) 300000 = 1 :=
  scheduler_start_idempotent initialSched 300000
    ⟨rfl, fun t ht => absurd ht (List.not_mem_nil t), Nat.le_refl 1⟩

/-! ## C10 — Escape-handler lifecycle -/

/-- **C10.** Evaluation of the modal event machine at the failing trace:
only the Escape handler detaches itself (inside its own callback, source
lines 621–627); `closeModal` (the close-button and backdrop paths) hides
the modal but does NOT remove the `keydown` listener. Starting from a
closed modal with no handlers: after `open; close-button` the modal is
closed yet ONE Escape handler is still attached (the claim demands zero
once closed), and after `open; close-button; open` TWO handlers are
attached (the claim demands at most one) — handlers accumulate across
open/close cycles. The Escape path, by contrast, does reset the count to
zero. -/
theorem modal_close_leaks_escape_handlers_code_bug :
    ((runModal oneSeedWidget [ModalEvent.openSeed 0, ModalEvent.clickClose]).toOption.map
        (fun s => (s.page.modalDisplayed, s.page.escHandlers))) = some (false, 1) ∧
    ((runModal oneSeedWidget
        [ModalEvent.openSeed 0, ModalEvent.clickClose, ModalEvent.openSeed 0]).toOption.map
        (fun s => (s.page.modalDisplayed, s.page.escHandlers))) = some (true, 2) ∧
    ((runModal oneSeedWidget [ModalEvent.openSeed 0, ModalEvent.pressEscape]).toOption.map
        (fun s => (s.page.modalDisplayed, s.page.escHandlers))) = some (false, 0) := by
  refine ⟨rfl, rfl, rfl⟩

set_option maxRecDepth 100000 in
/-- Validation of the SHA-256 embedding against the FIPS 180-4 test vector
for the empty message (the digest a whitespace-only email produces). -/
theorem sha256_fips_vector_empty :
    gravatarSha256 "" =
      "e3b0c44298fc1c149afbf4c8996fb92427ae41e4649b934ca495991b7852b855" := by
  decide

set_option maxRecDepth 100000 in
/-- Validation of the SHA-256 embedding against the FIPS 180-4 test vector
for `"abc"`. -/
theorem sha256_fips_vector_abc :
    gravatarSha256 "abc" =
      "ba7816bf8f01cfea414140de5dae2223b00361a396177a9cb410ff61f20015ad" := by
  decide
